import Mathlib

/-!
Shallow embedding of `src/timer.ts` (class `TomodoroTimer`) of the
firstplugin repository.

The timer state machine is embedded as a record `TimerState` holding the
mutable fields of the class (`isWorkPhase`, `timeLeft`, `isRunning`,
`currentSession`), together with:
* `timer : Bool` — whether the `NodeJS.Timeout` handle (the tick
  subscription acquired by `setInterval` in `start()` and released by
  `clearInterval` in `pause()`) is currently present
  (`true` ↔ `this.timer !== undefined`);
* `msgs : List Msg` — the log of user-facing informational messages
  emitted via `vscode.window.showInformationMessage`, newest first.

Each method of the class becomes a function `TimerState → TimerState`.
`updateStatusBar` only writes to the status-bar display sink and touches
no state modelled here, so it is embedded separately as the pure view
function `updateStatusBar : TimerState → StatusBarView`.  The
asynchronous `.then(...)` continuations attached to the phase-switch
messages simply invoke `start()`; they are covered by the `stepStart`
case of the reachability relation below.
-/

/-- Work-phase duration in seconds: `private workTime: number = 50 * 60`. -/
def workTime : Int := 50 * 60

/-- Break-phase duration in seconds: `private breakTime: number = 10 * 60`. -/
def breakTime : Int := 10 * 60

/-- One user-facing message emitted through
`vscode.window.showInformationMessage`, one constructor per distinct
call site in `timer.ts`. -/
inductive Msg where
  /-- `'Timer is already running!'` (from `start()`). -/
  | alreadyRunning : Msg
  /-- `` `Tomodoro started! ${phase} time: ${time}` `` (from `start()`);
  carries `isWorkPhase` and the formatted remaining time. -/
  | started : Bool → String → Msg
  /-- `'Timer is not running!'` (from `pause()`). -/
  | notRunning : Msg
  /-- `'Timer paused'` (from `pause()`). -/
  | paused : Msg
  /-- `'Timer reset to 50:00 work time'` (from `reset()`). -/
  | resetDone : Msg
  /-- `` `Switched to ${phase} phase` `` (from `skip()`); carries the new
  `isWorkPhase`. -/
  | switched : Bool → Msg
  /-- `` `🎉 Work session ${n} completed! ...` `` with the
  `'Start Break'` button (from `switchPhase()`). -/
  | workCompleted : Nat → Msg
  /-- `` `⚡ Break finished! Ready for work session ${n}?` `` with the
  `'Start Work'` button (from `switchPhase()`). -/
  | breakFinished : Nat → Msg
deriving DecidableEq, Repr

/-- The mutable state of a `TomodoroTimer` instance, plus the message
log.  Field initialisers are those of the class declaration; the
constructor then calls `reset()` (see `mkTimer`). -/
structure TimerState where
  /-- `private isWorkPhase: boolean = true` -/
  isWorkPhase : Bool := true
  /-- `private timeLeft: number = 0` -/
  timeLeft : Int := 0
  /-- `private isRunning: boolean = false` -/
  isRunning : Bool := false
  /-- `private timer: NodeJS.Timeout | undefined` — `true` iff the
  interval handle is present. -/
  timer : Bool := false
  /-- `private currentSession: number = 0` -/
  currentSession : Nat := 0
  /-- Emitted informational messages, newest first. -/
  msgs : List Msg := []
deriving DecidableEq, Repr

/-- Left-pad a string with `'0'` to length 2:
`.toString().padStart(2, '0')`. -/
def padStart2 (str : String) : String :=
  if str.length < 2 then String.mk (List.replicate (2 - str.length) '0') ++ str
  else str

/-- `formatTime(seconds)`: `mins = Math.floor(seconds / 60)` (floor of
the real quotient, hence `Int.fdiv`), `secs = seconds % 60` (JavaScript
`%` truncates toward zero, hence `Int.tmod`), each rendered and padded
to two digits, joined by `":"`. -/
def formatTime (seconds : Int) : String :=
  let mins : Int := Int.fdiv seconds 60
  let secs : Int := Int.tmod seconds 60
  padStart2 (toString mins) ++ ":" ++ padStart2 (toString secs)

/-- `pause()`: if not running, emit `'Timer is not running!'` and
return; otherwise clear `isRunning`, release the interval handle if
present, and emit `'Timer paused'`. -/
def pause (s : TimerState) : TimerState :=
  if !s.isRunning then
    { s with msgs := Msg.notRunning :: s.msgs }
  else
    let s1 := { s with isRunning := false }
    let s2 := if s1.timer then { s1 with timer := false } else s1
    { s2 with msgs := Msg.paused :: s2.msgs }

/-- `start()`: if already running, emit `'Timer is already running!'`
and return; otherwise set `isRunning`, acquire the interval handle, and
emit the start message with the current phase and formatted remaining
time. -/
def start (s : TimerState) : TimerState :=
  if s.isRunning then
    { s with msgs := Msg.alreadyRunning :: s.msgs }
  else
    let s1 := { s with isRunning := true, timer := true }
    { s1 with msgs := Msg.started s1.isWorkPhase (formatTime s1.timeLeft) :: s1.msgs }

/-- `switchPhase()`: pause, then either finish a work session
(`isWorkPhase := false`, `timeLeft := breakTime`, increment
`currentSession`, emit the celebration message) or finish a break
(`isWorkPhase := true`, `timeLeft := workTime`, emit the
break-finished message).  `updateStatusBar()` at the end touches only
the display sink.  The `'Start Break'` / `'Start Work'` button
continuations call `start()` asynchronously and are modelled by the
`stepStart` case of `Reachable`. -/
def switchPhase (s : TimerState) : TimerState :=
  let s1 := pause s
  if s1.isWorkPhase then
    let s2 := { s1 with isWorkPhase := false, timeLeft := breakTime,
                        currentSession := s1.currentSession + 1 }
    { s2 with msgs := Msg.workCompleted s2.currentSession :: s2.msgs }
  else
    let s2 := { s1 with isWorkPhase := true, timeLeft := workTime }
    { s2 with msgs := Msg.breakFinished (s2.currentSession + 1) :: s2.msgs }

/-- `reset()`: pause, set the work phase with its full duration, zero
the session counter, emit `'Timer reset to 50:00 work time'`. -/
def reset (s : TimerState) : TimerState :=
  let s1 := pause s
  let s2 := { s1 with isWorkPhase := true, timeLeft := workTime, currentSession := 0 }
  { s2 with msgs := Msg.resetDone :: s2.msgs }

/-- `skip()`: switch the phase, then emit
`` `Switched to ${phase} phase` `` for the new phase. -/
def skip (s : TimerState) : TimerState :=
  let s1 := switchPhase s
  { s1 with msgs := Msg.switched s1.isWorkPhase :: s1.msgs }

/-- `tick()` (the interval callback): decrement `timeLeft`; if it
reached `<= 0`, switch the phase.  The trailing `updateStatusBar()`
only refreshes the display. -/
def tick (s : TimerState) : TimerState :=
  let s1 := { s with timeLeft := s.timeLeft - 1 }
  if s1.timeLeft ≤ 0 then switchPhase s1 else s1

/-- `dispose()`: pause; the `statusBarItem.dispose()` call only tears
down the display sink. -/
def dispose (s : TimerState) : TimerState :=
  pause s

/-- The state produced by `new TomodoroTimer()`: field initialisers
(`TimerState` defaults) followed by the `reset()` call in the
constructor body. -/
def mkTimer : TimerState :=
  reset {}

/-- The view pushed to the status-bar display sink. -/
structure StatusBarView where
  text : String
  tooltip : String
  command : String
deriving DecidableEq, Repr

/-- `updateStatusBar()`: composes icon, phase tag, formatted time,
running glyph, tooltip and click command from the current state.  Pure
view, no state mutation. -/
def updateStatusBar (s : TimerState) : StatusBarView :=
  let icon := if s.isWorkPhase then "🎯" else "☕"
  let phase := if s.isWorkPhase then "WORK" else "BREAK"
  let time := formatTime s.timeLeft
  let status := if s.isRunning then "$(play)" else "$(debug-pause)"
  { text := icon ++ " " ++ phase ++ ": " ++ time ++ " " ++ status
    tooltip := "Tomodoro Timer | Session: " ++ toString s.currentSession
      ++ " | Click to " ++ (if s.isRunning then "pause" else "start")
    command := if s.isRunning then "tomodoro.pause" else "tomodoro.start" }

/-- The four core observable fields of the state machine: phase,
remaining seconds, running flag, completed-session count. -/
structure CoreState where
  isWorkPhase : Bool
  timeLeft : Int
  isRunning : Bool
  currentSession : Nat
deriving DecidableEq, Repr

/-- Projection of a `TimerState` onto its core fields. -/
def core (s : TimerState) : CoreState :=
  ⟨s.isWorkPhase, s.timeLeft, s.isRunning, s.currentSession⟩

/-- States reachable from construction through the public operations
and the tick callback.  A tick can fire only while the interval
subscription is live, i.e. while `isRunning` (the subscription exists
iff the timer is running).  The asynchronous button continuations of
`switchPhase` re-enter `start()` and are covered by `stepStart`;
`dispose()` is `pause()` on the modelled state and is covered by
`stepPause`. -/
inductive Reachable : TimerState → Prop where
  | init : Reachable mkTimer
  | stepStart {s : TimerState} : Reachable s → Reachable (start s)
  | stepPause {s : TimerState} : Reachable s → Reachable (pause s)
  | stepReset {s : TimerState} : Reachable s → Reachable (reset s)
  | stepSkip {s : TimerState} : Reachable s → Reachable (skip s)
  | stepTick {s : TimerState} : Reachable s → s.isRunning = true → Reachable (tick s)

/-- Recognises the celebratory work-session-completed message. -/
def isCeleb : Msg → Bool
  | Msg.workCompleted _ => true
  | _ => false

/-! ### Behaviour of each operation on an explicit state -/

lemma pause_not_running (w : Bool) (t : Int) (tm : Bool) (c : Nat) (m : List Msg) :
    pause ⟨w, t, false, tm, c, m⟩ = ⟨w, t, false, tm, c, Msg.notRunning :: m⟩ := rfl

lemma pause_running (w : Bool) (t : Int) (tm : Bool) (c : Nat) (m : List Msg) :
    pause ⟨w, t, true, tm, c, m⟩ = ⟨w, t, false, false, c, Msg.paused :: m⟩ := by
  cases tm <;> rfl

lemma start_not_running (w : Bool) (t : Int) (tm : Bool) (c : Nat) (m : List Msg) :
    start ⟨w, t, false, tm, c, m⟩
      = ⟨w, t, true, true, c, Msg.started w (formatTime t) :: m⟩ := rfl

lemma start_running (w : Bool) (t : Int) (tm : Bool) (c : Nat) (m : List Msg) :
    start ⟨w, t, true, tm, c, m⟩ = ⟨w, t, true, tm, c, Msg.alreadyRunning :: m⟩ := rfl

lemma switchPhase_work_running (t : Int) (tm : Bool) (c : Nat) (m : List Msg) :
    switchPhase ⟨true, t, true, tm, c, m⟩
      = ⟨false, breakTime, false, false, c + 1,
          Msg.workCompleted (c + 1) :: Msg.paused :: m⟩ := by
  cases tm <;> rfl

lemma switchPhase_work_paused (t : Int) (tm : Bool) (c : Nat) (m : List Msg) :
    switchPhase ⟨true, t, false, tm, c, m⟩
      = ⟨false, breakTime, false, tm, c + 1,
          Msg.workCompleted (c + 1) :: Msg.notRunning :: m⟩ := rfl

lemma switchPhase_break_running (t : Int) (tm : Bool) (c : Nat) (m : List Msg) :
    switchPhase ⟨false, t, true, tm, c, m⟩
      = ⟨true, workTime, false, false, c,
          Msg.breakFinished (c + 1) :: Msg.paused :: m⟩ := by
  cases tm <;> rfl

lemma switchPhase_break_paused (t : Int) (tm : Bool) (c : Nat) (m : List Msg) :
    switchPhase ⟨false, t, false, tm, c, m⟩
      = ⟨true, workTime, false, tm, c,
          Msg.breakFinished (c + 1) :: Msg.notRunning :: m⟩ := rfl

lemma tick_eq (s : TimerState) :
    tick s = if s.timeLeft - 1 ≤ 0
      then switchPhase { s with timeLeft := s.timeLeft - 1 }
      else { s with timeLeft := s.timeLeft - 1 } := rfl

lemma reset_running (w : Bool) (t : Int) (tm : Bool) (c : Nat) (m : List Msg) :
    reset ⟨w, t, true, tm, c, m⟩
      = ⟨true, workTime, false, false, 0, Msg.resetDone :: Msg.paused :: m⟩ := by
  cases tm <;> rfl

lemma reset_paused (w : Bool) (t : Int) (tm : Bool) (c : Nat) (m : List Msg) :
    reset ⟨w, t, false, tm, c, m⟩
      = ⟨true, workTime, false, tm, 0, Msg.resetDone :: Msg.notRunning :: m⟩ := rfl

lemma skip_eq (s : TimerState) :
    skip s = { switchPhase s with
                 msgs := Msg.switched (switchPhase s).isWorkPhase :: (switchPhase s).msgs } := rfl

/-- A tick whose decrement reaches `<= 0` switches the phase. -/
lemma tick_switch (w : Bool) (t : Int) (r tm : Bool) (c : Nat) (m : List Msg)
    (h : t - 1 ≤ 0) :
    tick ⟨w, t, r, tm, c, m⟩ = switchPhase ⟨w, t - 1, r, tm, c, m⟩ := by
  have he : tick ⟨w, t, r, tm, c, m⟩
      = if t - 1 ≤ 0 then switchPhase ⟨w, t - 1, r, tm, c, m⟩
        else ⟨w, t - 1, r, tm, c, m⟩ := rfl
  rw [he, if_pos h]

/-- A tick whose decrement stays `> 0` only decrements the clock. -/
lemma tick_dec (w : Bool) (t : Int) (r tm : Bool) (c : Nat) (m : List Msg)
    (h : ¬ t - 1 ≤ 0) :
    tick ⟨w, t, r, tm, c, m⟩ = ⟨w, t - 1, r, tm, c, m⟩ := by
  have he : tick ⟨w, t, r, tm, c, m⟩
      = if t - 1 ≤ 0 then switchPhase ⟨w, t - 1, r, tm, c, m⟩
        else ⟨w, t - 1, r, tm, c, m⟩ := rfl
  rw [he, if_neg h]

/-- Invariant of all reachable states: at least one second remains on
the clock, and the interval handle is present exactly when the timer is
running. -/
lemma reachable_inv (s : TimerState) (h : Reachable s) :
    1 ≤ s.timeLeft ∧ s.timer = s.isRunning := by
  induction h with
  | init => decide
  | @stepStart s h ih =>
    obtain ⟨w, t, r, tm, c, m⟩ := s
    obtain ⟨ih1, ih2⟩ := ih
    cases r
    · rw [start_not_running]; exact ⟨ih1, rfl⟩
    · rw [start_running]; exact ⟨ih1, ih2⟩
  | @stepPause s h ih =>
    obtain ⟨w, t, r, tm, c, m⟩ := s
    obtain ⟨ih1, ih2⟩ := ih
    cases r
    · rw [pause_not_running]; exact ⟨ih1, ih2⟩
    · rw [pause_running]; exact ⟨ih1, rfl⟩
  | @stepReset s h ih =>
    obtain ⟨w, t, r, tm, c, m⟩ := s
    obtain ⟨ih1, ih2⟩ := ih
    cases r
    · rw [reset_paused]; exact ⟨(by decide : (1 : Int) ≤ workTime), ih2⟩
    · rw [reset_running]; exact ⟨(by decide : (1 : Int) ≤ workTime), rfl⟩
  | @stepSkip s h ih =>
    obtain ⟨w, t, r, tm, c, m⟩ := s
    obtain ⟨ih1, ih2⟩ := ih
    rw [skip_eq]
    cases w <;> cases r
    · rw [switchPhase_break_paused]
      exact ⟨(by decide : (1 : Int) ≤ workTime), ih2⟩
    · rw [switchPhase_break_running]
      exact ⟨(by decide : (1 : Int) ≤ workTime), rfl⟩
    · rw [switchPhase_work_paused]
      exact ⟨(by decide : (1 : Int) ≤ breakTime), ih2⟩
    · rw [switchPhase_work_running]
      exact ⟨(by decide : (1 : Int) ≤ breakTime), rfl⟩
  | @stepTick s h hr ih =>
    obtain ⟨w, t, r, tm, c, m⟩ := s
    obtain ⟨ih1, ih2⟩ := ih
    simp only at hr ih1 ih2
    subst hr
    by_cases hd : t - 1 ≤ 0
    · rw [tick_switch _ _ _ _ _ _ hd]
      cases w
      · rw [switchPhase_break_running]
        exact ⟨(by decide : (1 : Int) ≤ workTime), rfl⟩
      · rw [switchPhase_work_running]
        exact ⟨(by decide : (1 : Int) ≤ breakTime), rfl⟩
    · rw [tick_dec _ _ _ _ _ _ hd]
      refine ⟨?_, ih2⟩
      show (1 : Int) ≤ t - 1
      omega

/-- Running the tick callback `R` times from a running work-phase state
whose clock reads exactly `R ≥ 1` seconds ends in the paused break
state: the clock counts down to `1`, and the `R`-th tick reaches `0`
and switches the phase. -/
lemma tickN_work_expire (R : Nat) :
    ∀ (t : Int) (tm : Bool) (c : Nat) (m : List Msg), 1 ≤ R → t = (R : Int) →
    tick^[R] ⟨true, t, true, tm, c, m⟩
      = ⟨false, breakTime, false, false, c + 1,
          Msg.workCompleted (c + 1) :: Msg.paused :: m⟩ := by
  induction R with
  | zero => intro t tm c m h1; omega
  | succ n ih =>
    intro t tm c m _ ht
    subst ht
    rw [Function.iterate_succ_apply]
    by_cases hn : n = 0
    · subst hn
      rw [tick_switch _ _ _ _ _ _ (by norm_num), switchPhase_work_running]
      rfl
    · have hcast : ((n + 1 : Nat) : Int) - 1 = (n : Int) := by push_cast; ring
      rw [tick_dec _ _ _ _ _ _ (by omega), hcast]
      exact ih (n : Int) tm c m (by omega) rfl

/-- Claim C1, counterexample: invoking `reset()` on a paused timer does
NOT suppress the "not running" message of `pause()` — the emitted log
contains `Msg.notRunning` besides the fixed reset confirmation, so
`reset()` does not emit only the reset message. -/
theorem c1_counterexample :
    Msg.notRunning ∈ (reset (⟨true, 100, false, false, 0, []⟩ : TimerState)).msgs ∧
    (reset (⟨true, 100, false, false, 0, []⟩ : TimerState)).msgs
      = [Msg.resetDone, Msg.notRunning] := by
  decide

/-- Claim C1, amended: `reset()` invoked while the timer is not running
pauses per `pause()` semantics INCLUDING its user-facing "not running"
informational message (no suppression), then sets phase = WORK,
`remainingSeconds = workDurationSeconds`, `completedWorkSessions = 0`,
and emits the fixed notification confirming reset to the initial work
duration. -/
theorem c1_reset_not_silent (s : TimerState) (h : s.isRunning = false) :
    reset s = { s with isWorkPhase := true, timeLeft := workTime, currentSession := 0,
                       msgs := Msg.resetDone :: Msg.notRunning :: s.msgs } := by
  obtain ⟨w, t, r, tm, c, m⟩ := s
  simp only at h
  subst h
  rw [reset_paused]

/-- Witness for the amended claim C1 at a concrete paused state. -/
theorem c1_reset_not_silent_witness :
    reset (⟨true, 100, false, false, 0, []⟩ : TimerState)
      = { (⟨true, 100, false, false, 0, []⟩ : TimerState) with
            isWorkPhase := true, timeLeft := workTime, currentSession := 0,
            msgs := Msg.resetDone :: Msg.notRunning :: [] } :=
  c1_reset_not_silent _ rfl

/-- Claim C2: from any state in the WORK phase with `R ≥ 1` seconds
remaining and session count `S`, `skip()` yields the same core state
(phase, remaining seconds, running flag, session count) as letting `R`
tick decrements drive the clock naturally to `0` from a running WORK
state — both produce `(BREAK, breakDurationSeconds = 600, paused,
S + 1)`. -/
theorem c2_transition_equivalence (R S : Nat) (s₁ s₂ : TimerState)
    (h1w : s₁.isWorkPhase = true) (h1t : s₁.timeLeft = (R : Int))
    (h1c : s₁.currentSession = S)
    (h2w : s₂.isWorkPhase = true) (h2t : s₂.timeLeft = (R : Int))
    (h2c : s₂.currentSession = S) (h2r : s₂.isRunning = true)
    (hR : 1 ≤ R) :
    core (skip s₁) = core (tick^[R] s₂) ∧
    core (skip s₁) = ⟨false, breakTime, false, S + 1⟩ := by
  obtain ⟨w1, t1, r1, tm1, c1, m1⟩ := s₁
  obtain ⟨w2, t2, r2, tm2, c2, m2⟩ := s₂
  simp only at h1w h1t h1c h2w h2t h2c h2r
  subst h1w h1t h1c h2w h2t h2c h2r
  rw [tickN_work_expire R _ tm2 _ m2 hR rfl, skip_eq]
  cases r1
  · rw [switchPhase_work_paused]; exact ⟨rfl, rfl⟩
  · rw [switchPhase_work_running]; exact ⟨rfl, rfl⟩

/-- Witness for claim C2 at `R = 2`, `S = 0`. -/
theorem c2_witness :
    (core (skip (⟨true, 2, false, false, 0, []⟩ : TimerState))
      = core (tick^[2] (⟨true, 2, true, true, 0, []⟩ : TimerState))) ∧
    core (skip (⟨true, 2, false, false, 0, []⟩ : TimerState))
      = ⟨false, breakTime, false, 0 + 1⟩ :=
  c2_transition_equivalence 2 0 _ _ rfl rfl rfl rfl rfl rfl rfl (by decide)

/-- Claim C3: the scenario. Immediately after construction the core
state is `(WORK, 3000, paused, 0 sessions)`; after `start()` the timer
is running with the tick subscription live; after exactly `3000` tick
decrements the core state is `(BREAK, 600, paused, 1 session)` and the
celebratory work-completed notification has been emitted exactly once;
a subsequent `skip()` yields `(WORK, 3000, paused, 1 session)`. -/
theorem c3_scenario :
    core mkTimer = ⟨true, 3000, false, 0⟩ ∧
    (start mkTimer).isRunning = true ∧
    (start mkTimer).timer = true ∧
    core (tick^[3000] (start mkTimer)) = ⟨false, 600, false, 1⟩ ∧
    (tick^[3000] (start mkTimer)).msgs.countP isCeleb = 1 ∧
    core (skip (tick^[3000] (start mkTimer))) = ⟨true, 3000, false, 1⟩ := by
  have hs : start mkTimer
      = ⟨true, 3000, true, true, 0,
          [Msg.started true "50:00", Msg.resetDone, Msg.notRunning]⟩ := by decide
  have h3 : tick^[3000] (start mkTimer)
      = ⟨false, breakTime, false, false, 1,
          [Msg.workCompleted 1, Msg.paused,
           Msg.started true "50:00", Msg.resetDone, Msg.notRunning]⟩ := by
    rw [hs]
    exact tickN_work_expire 3000 _ true 0 _ (by norm_num) (by norm_num)
  refine ⟨by decide, by rw [hs], by rw [hs], ?_, ?_, ?_⟩
  · rw [h3]; decide
  · rw [h3]; decide
  · rw [h3]; decide

/-- Claim C4: non-negativity of the clock. In every reachable state
the remaining seconds are `≥ 0`, and they remain `≥ 0` immediately
after each public operation (`start`, `pause`, `reset`, `skip`) and
after a tick decrement completes (a decrement reaching `≤ 0` reloads
the clock with the next phase's full duration before returning). -/
theorem c4_no_negative_time (s : TimerState) (h : Reachable s) :
    0 ≤ s.timeLeft ∧ 0 ≤ (start s).timeLeft ∧ 0 ≤ (pause s).timeLeft ∧
    0 ≤ (reset s).timeLeft ∧ 0 ≤ (skip s).timeLeft ∧ 0 ≤ (tick s).timeLeft := by
  have h1 := (reachable_inv s h).1
  obtain ⟨w, t, r, tm, c, m⟩ := s
  simp only at h1
  refine ⟨(by omega : (0 : Int) ≤ t), ?_, ?_, ?_, ?_, ?_⟩
  · cases r
    · rw [start_not_running]; show (0 : Int) ≤ t; omega
    · rw [start_running]; show (0 : Int) ≤ t; omega
  · cases r
    · rw [pause_not_running]; show (0 : Int) ≤ t; omega
    · rw [pause_running]; show (0 : Int) ≤ t; omega
  · cases r
    · rw [reset_paused]; exact (by decide : (0 : Int) ≤ workTime)
    · rw [reset_running]; exact (by decide : (0 : Int) ≤ workTime)
  · rw [skip_eq]
    cases w <;> cases r
    · rw [switchPhase_break_paused]; exact (by decide : (0 : Int) ≤ workTime)
    · rw [switchPhase_break_running]; exact (by decide : (0 : Int) ≤ workTime)
    · rw [switchPhase_work_paused]; exact (by decide : (0 : Int) ≤ breakTime)
    · rw [switchPhase_work_running]; exact (by decide : (0 : Int) ≤ breakTime)
  · by_cases hd : t - 1 ≤ 0
    · rw [tick_switch _ _ _ _ _ _ hd]
      cases w <;> cases r
      · rw [switchPhase_break_paused]; exact (by decide : (0 : Int) ≤ workTime)
      · rw [switchPhase_break_running]; exact (by decide : (0 : Int) ≤ workTime)
      · rw [switchPhase_work_paused]; exact (by decide : (0 : Int) ≤ breakTime)
      · rw [switchPhase_work_running]; exact (by decide : (0 : Int) ≤ breakTime)
    · rw [tick_dec _ _ _ _ _ _ hd]; show (0 : Int) ≤ t - 1; omega

/-- Witness for claim C4 at the freshly constructed state. -/
theorem c4_witness :
    0 ≤ mkTimer.timeLeft ∧ 0 ≤ (start mkTimer).timeLeft ∧
    0 ≤ (pause mkTimer).timeLeft ∧ 0 ≤ (reset mkTimer).timeLeft ∧
    0 ≤ (skip mkTimer).timeLeft ∧ 0 ≤ (tick mkTimer).timeLeft :=
  c4_no_negative_time mkTimer Reachable.init

/-- Claim C5: in every reachable state the interval handle (the `timer`
field, i.e. the tick subscription) is present if and only if the timer
is running — `start()` acquires it exactly when it sets the running
flag, and `pause()` (hence also `reset`, `skip`, the phase transition
and `dispose`, which all go through `pause`) releases it exactly when
it clears the flag. -/
theorem c5_tick_handle_coupling (s : TimerState) (h : Reachable s) :
    s.timer = true ↔ s.isRunning = true := by
  rw [(reachable_inv s h).2]

/-- Witness for claim C5 at a concrete running state. -/
theorem c5_witness :
    ((start mkTimer).timer = true ↔ (start mkTimer).isRunning = true) :=
  c5_tick_handle_coupling (start mkTimer) (Reachable.stepStart Reachable.init)

/-- Claim C6: session-count discipline. `completedWorkSessions`
(`currentSession`) is unchanged by `start` and `pause`, set to `0` by
`reset`, incremented by exactly `1` by `skip` precisely when the
current phase is WORK (a WORK→BREAK transition) and unchanged by a
BREAK→WORK `skip`, incremented by exactly `1` by a tick precisely when
the decrement expires the clock in the WORK phase, and never decreased
by any operation other than `reset`. -/
theorem c6_session_discipline (s : TimerState) :
    (start s).currentSession = s.currentSession ∧
    (pause s).currentSession = s.currentSession ∧
    (reset s).currentSession = 0 ∧
    (skip s).currentSession
      = (if s.isWorkPhase = true then s.currentSession + 1 else s.currentSession) ∧
    (tick s).currentSession
      = (if s.timeLeft - 1 ≤ 0 ∧ s.isWorkPhase = true then s.currentSession + 1
         else s.currentSession) ∧
    s.currentSession ≤ (start s).currentSession ∧
    s.currentSession ≤ (pause s).currentSession ∧
    s.currentSession ≤ (skip s).currentSession ∧
    s.currentSession ≤ (tick s).currentSession := by
  obtain ⟨w, t, r, tm, c, m⟩ := s
  simp only
  have hstart : (start ⟨w, t, r, tm, c, m⟩).currentSession = c := by
    cases r <;> rfl
  have hpause : (pause ⟨w, t, r, tm, c, m⟩).currentSession = c := by
    cases r <;> cases tm <;> rfl
  have hreset : (reset ⟨w, t, r, tm, c, m⟩).currentSession = 0 := by
    cases r <;> cases tm <;> rfl
  have hskip : (skip ⟨w, t, r, tm, c, m⟩).currentSession
      = if w = true then c + 1 else c := by
    cases w <;> cases r <;> cases tm <;> rfl
  have htick : (tick ⟨w, t, r, tm, c, m⟩).currentSession
      = if t - 1 ≤ 0 ∧ w = true then c + 1 else c := by
    by_cases hd : t - 1 ≤ 0
    · rw [tick_switch _ _ _ _ _ _ hd]
      cases w
      · rw [if_neg (by simp)]
        cases r <;> cases tm <;> rfl
      · rw [if_pos ⟨hd, rfl⟩]
        cases r <;> cases tm <;> rfl
    · rw [tick_dec _ _ _ _ _ _ hd, if_neg (fun hh => hd hh.1)]
  refine ⟨hstart, hpause, hreset, hskip, htick, le_of_eq hstart.symm,
    le_of_eq hpause.symm, ?_, ?_⟩
  · rw [hskip]; split <;> omega
  · rw [htick]; split <;> omega

/-- Claim C7: `formatTime` renders minutes as the floor of
`seconds / 60` and seconds as `seconds mod 60`, each zero-padded to two
digits, without clamping minutes to `59` — witnessed by the four
round-trip cases of the spec, including `3600 ↦ "60:00"`. -/
theorem c7_formatTime :
    formatTime 125 = "02:05" ∧ formatTime 3000 = "50:00" ∧
    formatTime 3600 = "60:00" ∧ formatTime 0 = "00:00" := by
  decide

/-- Claim C8: no-op guard frame conditions. `start()` invoked while
running changes no state field and only emits the "already running"
message; `pause()` invoked while not running changes no state field and
only emits the "not running" message. -/
theorem c8_noop_guards (s : TimerState) :
    (s.isRunning = true →
      start s = { s with msgs := Msg.alreadyRunning :: s.msgs }) ∧
    (s.isRunning = false →
      pause s = { s with msgs := Msg.notRunning :: s.msgs }) := by
  obtain ⟨w, t, r, tm, c, m⟩ := s
  constructor
  · intro hr; simp only at hr; subst hr; rw [start_running]
  · intro hr; simp only at hr; subst hr; rw [pause_not_running]

/-- Witness for claim C8: the guards at the constructed state (not
running) and the started state (running). -/
theorem c8_witness :
    start (start mkTimer)
      = { start mkTimer with msgs := Msg.alreadyRunning :: (start mkTimer).msgs } ∧
    pause mkTimer = { mkTimer with msgs := Msg.notRunning :: mkTimer.msgs } :=
  ⟨(c8_noop_guards (start mkTimer)).1 (by decide),
   (c8_noop_guards mkTimer).2 (by decide)⟩

/-- Claim C9: reset idempotence. From any state, two consecutive
`reset()` calls yield the same core state as one, namely
`(WORK, workDurationSeconds = 3000, paused, 0 sessions)`. -/
theorem c9_reset_idempotent (s : TimerState) :
    core (reset (reset s)) = core (reset s) ∧
    core (reset s) = ⟨true, workTime, false, 0⟩ := by
  obtain ⟨w, t, r, tm, c, m⟩ := s
  cases r <;> cases tm <;> exact ⟨rfl, rfl⟩

/-- Claim C10: strengthened non-negativity. In every reachable state in
which the timer is running, at least one second remains on the clock —
the countdown never rests at `0` or below while the tick subscription
is live. -/
theorem c10_running_min_one (s : TimerState) (h : Reachable s)
    (_hr : s.isRunning = true) : 1 ≤ s.timeLeft :=
  (reachable_inv s h).1

/-- Witness for claim C10 at the started fresh state. -/
theorem c10_witness :
    (start mkTimer).isRunning = true ∧ 1 ≤ (start mkTimer).timeLeft :=
  ⟨by decide,
   c10_running_min_one (start mkTimer) (Reachable.stepStart Reachable.init) (by decide)⟩
